import Mathlib

/-!
Shallow embedding of the game-session controller of the World Knowledge
Trivia repository (`src/components/TriviaGame.tsx`, static-pool variant, and
the AI-generation variant `src/src/components/TriviaGame.tsx`), together with
proofs about the state-transition functions.

Conventions of the embedding:
* JS numbers that are only ever non-negative integers (indices, scores,
  counters, timestamps) are `Nat`; the answer index passed to
  `handleAnswerSelect` is `Int`, since a caller could pass any integer.
* `null` fields are `Option`.
* `Math.random`-driven choices are an oracle `rand : Nat → Nat`, where
  `rand i` stands for `Math.floor(Math.random() * (i + 1))` in the loop
  iteration with counter `i`.
* The asynchronous image generation (`client.run` on flux-schnell) is an
  oracle `genImage : TriviaQuestion → Option String`: `some url` models a
  successful generation, `none` models the per-question catch branch that
  returns the question unchanged.
* `Date.now()` is a parameter `now : Nat`.
* The availability check `!client` is a parameter `clientAvailable : Bool`.
* `handleAnswerSelect` returns `Option GameState`: `none` models the
  TypeError thrown by `currentQuestion.correctAnswer` when
  `questions[currentQuestionIndex]` is `undefined` (the stored state is then
  never updated, the handler aborts before `setGameState`).
-/

/-- Difficulty union type from `src/types.ts`: easy, medium, hard. -/
inductive Difficulty where
  | easy
  | medium
  | hard
deriving DecidableEq, Repr

/-- TriviaQuestion interface from `src/types.ts`. -/
structure TriviaQuestion where
  question : String
  options : List String
  correctAnswer : Nat
  category : String
  difficulty : Difficulty
  imageUrl : Option String := none
deriving DecidableEq, Repr

/-- GameState interface from `src/types.ts`. -/
structure GameState where
  currentQuestionIndex : Nat
  score : Nat
  questions : List TriviaQuestion
  answered : Bool
  selectedAnswer : Option Int
  gameStarted : Bool
  selectedDifficulty : Option Difficulty
  selectedCategory : Option String
  lastPlayedAt : Option Nat := none
  totalGamesPlayed : Nat
  highScore : Nat
deriving DecidableEq, Repr

/-- Default state passed to the storage hook for key `trivia-game-state`. -/
def initialGameState : GameState where
  currentQuestionIndex := 0
  score := 0
  questions := []
  answered := false
  selectedAnswer := none
  gameStarted := false
  selectedDifficulty := none
  selectedCategory := none
  totalGamesPlayed := 0
  highScore := 0

/-- Swap of two positions of a list, modelling the JS destructuring swap
`[shuffled[i], shuffled[j]] = [shuffled[j], shuffled[i]]`. Both indices are
in range whenever the JS loop performs the swap, so the out-of-range guard
is never exercised by `shuffleArray`. -/
def listSwap {α : Type} (l : List α) (i j : Nat) : List α :=
  match l.get? i, l.get? j with
  | some a, some b => (l.set i b).set j a
  | _, _ => l

/-- Loop of `shuffleArray`: performs the swaps for counter values
`i, i - 1, ..., 1`, each drawing `j = rand i` with `j ≤ i`. -/
def fisherYatesAux {α : Type} (rand : Nat → Nat) : Nat → List α → List α
  | 0, l => l
  | i + 1, l => fisherYatesAux rand i (listSwap l (i + 1) (rand (i + 1)))

/-- shuffleArray from `TriviaGame.tsx`: copies the array and runs a
Fisher-Yates loop from `length - 1` down to `1`. -/
def shuffleArray {α : Type} (rand : Nat → Nat) (array : List α) : List α :=
  fisherYatesAux rand (array.length - 1) array

/-- handleDifficultySelect: stores the chosen difficulty, nothing else. -/
def handleDifficultySelect (s : GameState) (difficulty : Difficulty) : GameState :=
  { s with selectedDifficulty := some difficulty }

/-- handleCategorySelect: stores the chosen category label, nothing else. -/
def handleCategorySelect (s : GameState) (category : String) : GameState :=
  { s with selectedCategory := some category }

/-- Truthiness of
`gameState.selectedCategory && gameState.selectedCategory !== 'All Categories'`:
the category filter is applied only for a non-null, non-empty label other
than the sentinel `All Categories` (the empty string is falsy in JS). -/
def categoryFilterActive (category : Option String) : Bool :=
  match category with
  | none => false
  | some c => !(c == "") && !(c == "All Categories")

/-- Question subset built inside `startGame`: filter the pool by the selected
difficulty, then by category when the category filter is active. -/
def filteredPool (pool : List TriviaQuestion) (difficulty : Difficulty)
    (category : Option String) : List TriviaQuestion :=
  let byDifficulty := pool.filter (fun q => q.difficulty == difficulty)
  match category with
  | none => byDifficulty
  | some c =>
      if !(c == "") && !(c == "All Categories") then
        byDifficulty.filter (fun q => q.category == c)
      else byDifficulty

/-- Image-attachment step of `startGame`: on success the question gets the
generated url as `imageUrl`, on failure it is returned unchanged. -/
def attachImage (genImage : TriviaQuestion → Option String)
    (q : TriviaQuestion) : TriviaQuestion :=
  match genImage q with
  | some url => { q with imageUrl := some url }
  | none => q

/-- startGame from the static-pool `TriviaGame.tsx`: returns early (state
untouched) when no difficulty is selected or the client is unavailable;
otherwise filters the pool, shuffles it, attaches image hints, and replaces
the state with a fresh started game. -/
def startGame (pool : List TriviaQuestion) (clientAvailable : Bool)
    (rand : Nat → Nat) (genImage : TriviaQuestion → Option String)
    (now : Nat) (s : GameState) : GameState :=
  match s.selectedDifficulty with
  | none => s
  | some difficulty =>
      if !clientAvailable then s
      else
        let filteredQuestions := filteredPool pool difficulty s.selectedCategory
        let shuffledQuestions := shuffleArray rand filteredQuestions
        let questionsWithImages := shuffledQuestions.map (attachImage genImage)
        { s with
            questions := questionsWithImages
            currentQuestionIndex := 0
            score := 0
            answered := false
            selectedAnswer := none
            gameStarted := true
            lastPlayedAt := some now }

/-- handleAnswerSelect (identical in both component variants): ignored when
already answered; otherwise reads the current question (a `none` result
models the JS TypeError on an out-of-range `currentQuestionIndex`, which
aborts the handler before any state update), records the selection, marks
answered, and bumps the score exactly when the selection is correct. -/
def handleAnswerSelect (s : GameState) (answerIndex : Int) : Option GameState :=
  if s.answered then some s
  else
    match s.questions.get? s.currentQuestionIndex with
    | none => none
    | some currentQuestion =>
        some { s with
                selectedAnswer := some answerIndex
                answered := true
                score :=
                  if answerIndex = (currentQuestion.correctAnswer : Int) then
                    s.score + 1
                  else s.score }

/-- handleNextQuestion (identical in both component variants): advances to
the next question while one remains, clearing the answer state; on the last
question it ends the game, bumps the games-played counter and updates the
high score. -/
def handleNextQuestion (s : GameState) : GameState :=
  let nextIndex := s.currentQuestionIndex + 1
  if nextIndex < s.questions.length then
    { s with
        currentQuestionIndex := nextIndex
        answered := false
        selectedAnswer := none }
  else
    { s with
        gameStarted := false
        totalGamesPlayed := s.totalGamesPlayed + 1
        highScore := if s.score > s.highScore then s.score else s.highScore }

/-- restartGame from the static-pool variant: clears the running game, the
filters and the question list. -/
def restartGame (s : GameState) : GameState :=
  { s with
      currentQuestionIndex := 0
      score := 0
      answered := false
      selectedAnswer := none
      gameStarted := false
      selectedDifficulty := none
      selectedCategory := none
      questions := [] }

/-- quitGame from the static-pool variant: same reset as `restartGame`. -/
def quitGame (s : GameState) : GameState :=
  { s with
      currentQuestionIndex := 0
      score := 0
      answered := false
      selectedAnswer := none
      gameStarted := false
      selectedDifficulty := none
      selectedCategory := none
      questions := [] }

/-- QUESTIONS_PER_DIFFICULTY constant of both component variants. -/
def QUESTIONS_PER_DIFFICULTY : Nat := 15

/-- QUESTIONS_PER_GAME constant of both component variants. -/
def QUESTIONS_PER_GAME : Nat := QUESTIONS_PER_DIFFICULTY * 3

/-- JS `Math.round` on the (non-negative, exactly representable in this
model) rationals arising from the percentage computations: round half up. -/
def jsRound (x : ℚ) : Int := Int.floor (x + 1 / 2)

/-- Percentage shown on the game-over screen of the static-pool variant:
`Math.round((score / totalQuestions) * 100)` with
`totalQuestions = gameState.questions.length`. -/
def resultPercentage (s : GameState) : Int :=
  jsRound ((s.score : ℚ) / (s.questions.length : ℚ) * 100)

/-- Percentage shown on the game-over screen of the AI-generation variant
`src/src/components/TriviaGame.tsx`:
`Math.round((score / QUESTIONS_PER_GAME) * 100)` with the constant 45. -/
def resultPercentageTsx (s : GameState) : Int :=
  jsRound ((s.score : ℚ) / (QUESTIONS_PER_GAME : ℚ) * 100)

/-! ## Permutation facts about the shuffle -/

/-- Moving the element at position `k` to the front while writing `x` into
position `k` permutes putting `x` at the front. -/
lemma cons_set_perm {α : Type} :
    ∀ (xs : List α) (k : Nat) (a x : α), xs.get? k = some a →
      List.Perm (a :: xs.set k x) (x :: xs)
  | [], _, _, _, h => absurd h (by simp)
  | y :: ys, 0, a, x, h => by
      injection h with h
      subst h
      exact List.Perm.swap x y ys
  | y :: ys, k + 1, a, x, h =>
      (List.Perm.swap y a (ys.set k x)).trans
        ((List.Perm.cons y (cons_set_perm ys k a x h)).trans (List.Perm.swap x y ys))

/-- Exchanging the values stored at two in-range positions permutes the
list. -/
lemma set_set_perm {α : Type} :
    ∀ (l : List α) (i j : Nat) (a b : α),
      l.get? i = some a → l.get? j = some b →
      List.Perm ((l.set i b).set j a) l
  | [], _, _, _, _, ha, _ => absurd ha (by simp)
  | x :: xs, 0, 0, a, b, ha, hb => by
      injection ha with ha
      injection hb with hb
      subst ha
      subst hb
      exact List.Perm.refl _
  | x :: xs, 0, m + 1, a, b, ha, hb => by
      injection ha with ha
      subst ha
      exact cons_set_perm xs m b x hb
  | x :: xs, n + 1, 0, a, b, ha, hb => by
      injection hb with hb
      subst hb
      exact cons_set_perm xs n a x ha
  | x :: xs, n + 1, m + 1, a, b, ha, hb =>
      List.Perm.cons x (set_set_perm xs n m a b ha hb)

/-- One swap is a permutation. -/
lemma listSwap_perm {α : Type} (l : List α) (i j : Nat) :
    List.Perm (listSwap l i j) l := by
  unfold listSwap
  split
  · rename_i a b ha hb
    exact set_set_perm l i j a b ha hb
  · exact List.Perm.refl l

/-- Every pass of the Fisher-Yates loop permutes the list, whatever the
random draws. -/
lemma fisherYatesAux_perm {α : Type} (rand : Nat → Nat) :
    ∀ (i : Nat) (l : List α), List.Perm (fisherYatesAux rand i l) l
  | 0, l => List.Perm.refl l
  | i + 1, l =>
      (fisherYatesAux_perm rand i (listSwap l (i + 1) (rand (i + 1)))).trans
        (listSwap_perm l (i + 1) (rand (i + 1)))

/-- shuffleArray returns a permutation of its input. -/
lemma shuffleArray_perm {α : Type} (rand : Nat → Nat) (array : List α) :
    List.Perm (shuffleArray rand array) array :=
  fisherYatesAux_perm rand (array.length - 1) array

/-! ## Reachability of game states -/

/-- One user action of the controller, as fired by the UI handlers. The
parameters of `start` (pool, client availability, random draws, image
generation results, clock) are arbitrary, so every run of the app is
covered. An `answer` step only fires when the handler completes (a `none`
result aborts before the state update). -/
inductive Step : GameState → GameState → Prop where
  | selectDifficulty (s : GameState) (d : Difficulty) :
      Step s (handleDifficultySelect s d)
  | selectCategory (s : GameState) (c : String) :
      Step s (handleCategorySelect s c)
  | start (s : GameState) (pool : List TriviaQuestion) (clientAvailable : Bool)
      (rand : Nat → Nat) (genImage : TriviaQuestion → Option String) (now : Nat) :
      Step s (startGame pool clientAvailable rand genImage now s)
  | answer (s s' : GameState) (i : Int) (h : handleAnswerSelect s i = some s') :
      Step s s'
  | next (s : GameState) : Step s (handleNextQuestion s)
  | restart (s : GameState) : Step s (restartGame s)
  | quit (s : GameState) : Step s (quitGame s)

/-- States reachable from the stored default state by any sequence of user
actions. -/
inductive Reachable : GameState → Prop where
  | init : Reachable initialGameState
  | step {s s' : GameState} : Reachable s → Step s s' → Reachable s'

/-- Inductive score bound: every reachable state satisfies
`score ≤ currentQuestionIndex + (answered ? 1 : 0)`. -/
lemma reachable_score_le {s : GameState} (h : Reachable s) :
    s.score ≤ s.currentQuestionIndex + (if s.answered then 1 else 0) := by
  induction h with
  | init => simp [initialGameState]
  | step hr hstep ih =>
      rename_i s s'
      cases hstep with
      | selectDifficulty d => simpa [handleDifficultySelect] using ih
      | selectCategory c => simpa [handleCategorySelect] using ih
      | start pool clientAvailable rand genImage now =>
          cases hd : s.selectedDifficulty with
          | none => simpa [startGame, hd] using ih
          | some d =>
              cases clientAvailable with
              | false => simpa [startGame, hd] using ih
              | true => simp [startGame, hd]
      | answer s2 i hsel =>
          unfold handleAnswerSelect at hsel
          split at hsel
          · cases hsel
            exact ih
          · rename_i hans
            split at hsel
            · cases hsel
            · cases hsel
              simp only [Bool.not_eq_true] at hans
              simp only [hans, Bool.false_eq_true, if_false, Nat.add_zero] at ih
              simp only [if_true]
              split <;> omega
      | next =>
          rw [handleNextQuestion]
          split
          · simp only
            split at ih <;> omega
          · simpa using ih
      | restart => simp [restartGame]
      | quit => simp [quitGame]

/-! ## Concrete data for witnesses and counterexamples -/

/-- Concrete question shaped like the entries of the bundled pool. -/
def sampleQuestion : TriviaQuestion where
  question := "What is the capital of France?"
  options := ["Paris", "London", "Berlin", "Madrid"]
  correctAnswer := 0
  category := "World Geography"
  difficulty := Difficulty.easy

/-- State on the start screen with the easy difficulty chosen. -/
def easySelectedState : GameState :=
  { initialGameState with selectedDifficulty := some Difficulty.easy }

/-- Projection forgetting the optional image hint of a question. -/
def eraseImage (q : TriviaQuestion) : TriviaQuestion :=
  { q with imageUrl := none }

/-- Attaching an image hint changes nothing but the image field. -/
lemma eraseImage_attachImage (genImage : TriviaQuestion → Option String)
    (q : TriviaQuestion) : eraseImage (attachImage genImage q) = eraseImage q := by
  unfold attachImage
  cases genImage q <;> rfl

/-! ## Claim C1 -/

/-- C1 counterexample: with an empty source pool (hence an empty filtered
pool) and the easy difficulty selected, `startGame` mutates the state
instead of leaving every field unchanged. -/
theorem startGame_emptyPool_mutates_counterexample :
    filteredPool [] Difficulty.easy easySelectedState.selectedCategory = [] ∧
    startGame [] true (fun _ => 0) (fun _ => none) 5 easySelectedState ≠
      easySelectedState := by
  decide

/-- C1 (amended): `startGame` reports no error on an empty filtered pool;
with a selected difficulty and an available client it proceeds, replacing
the state with a started game over the empty question list: it resets
index, score, answered and selectedAnswer, sets gameStarted and records the
timestamp, leaving the remaining fields unchanged. -/
theorem startGame_emptyPool_starts (pool : List TriviaQuestion)
    (rand : Nat → Nat) (genImage : TriviaQuestion → Option String) (now : Nat)
    (s : GameState) (d : Difficulty)
    (hd : s.selectedDifficulty = some d)
    (hempty : filteredPool pool d s.selectedCategory = []) :
    startGame pool true rand genImage now s =
      { s with
          questions := []
          currentQuestionIndex := 0
          score := 0
          answered := false
          selectedAnswer := none
          gameStarted := true
          lastPlayedAt := some now } := by
  simp [startGame, hd, hempty, shuffleArray, fisherYatesAux]

/-- Witness for the amended C1 at a concrete empty pool. -/
theorem startGame_emptyPool_starts_witness :
    easySelectedState.selectedDifficulty = some Difficulty.easy ∧
    filteredPool [] Difficulty.easy easySelectedState.selectedCategory = [] ∧
    startGame [] true (fun _ => 0) (fun _ => none) 5 easySelectedState =
      { easySelectedState with
          questions := []
          currentQuestionIndex := 0
          score := 0
          answered := false
          selectedAnswer := none
          gameStarted := true
          lastPlayedAt := some 5 } :=
  ⟨rfl, rfl,
    startGame_emptyPool_starts [] (fun _ => 0) (fun _ => none) 5
      easySelectedState Difficulty.easy rfl rfl⟩

/-! ## Claim C2 -/

/-- C2 counterexample: when image generation succeeds, the stored questions
carry generated image urls, so the resulting list is not a permutation of
the filtered subset of the pool itself. -/
theorem startGame_questions_not_perm_counterexample :
    ¬ List.Perm
        (startGame [sampleQuestion] true (fun _ => 0)
          (fun _ => some "hint.png") 7 easySelectedState).questions
        (filteredPool [sampleQuestion] Difficulty.easy
          easySelectedState.selectedCategory) := by
  decide

/-- C2 (amended): after a successful `startGame`, the question list, with
the optional image hints erased, is a permutation of the filtered subset of
the source pool (with its hints erased), and its length equals the count of
matching entries; the questions themselves may differ from the pool entries
in the image field only. -/
theorem startGame_questions_perm_up_to_images (pool : List TriviaQuestion)
    (rand : Nat → Nat) (genImage : TriviaQuestion → Option String) (now : Nat)
    (s : GameState) (d : Difficulty) (hd : s.selectedDifficulty = some d) :
    List.Perm
      ((startGame pool true rand genImage now s).questions.map eraseImage)
      ((filteredPool pool d s.selectedCategory).map eraseImage) ∧
    (startGame pool true rand genImage now s).questions.length =
      (filteredPool pool d s.selectedCategory).length := by
  have hq : (startGame pool true rand genImage now s).questions =
      (shuffleArray rand (filteredPool pool d s.selectedCategory)).map
        (attachImage genImage) := by
    simp [startGame, hd]
  constructor
  · rw [hq, List.map_map]
    have hfun : eraseImage ∘ attachImage genImage = eraseImage := by
      funext q
      exact eraseImage_attachImage genImage q
    rw [hfun]
    exact (shuffleArray_perm rand _).map eraseImage
  · rw [hq, List.length_map]
    exact (shuffleArray_perm rand _).length_eq

/-- Witness for the amended C2 at a concrete one-question pool. -/
theorem startGame_questions_perm_up_to_images_witness :
    easySelectedState.selectedDifficulty = some Difficulty.easy ∧
    (List.Perm
      ((startGame [sampleQuestion] true (fun _ => 0)
          (fun _ => some "hint.png") 7 easySelectedState).questions.map eraseImage)
      ((filteredPool [sampleQuestion] Difficulty.easy
          easySelectedState.selectedCategory).map eraseImage) ∧
     (startGame [sampleQuestion] true (fun _ => 0)
        (fun _ => some "hint.png") 7 easySelectedState).questions.length =
      (filteredPool [sampleQuestion] Difficulty.easy
          easySelectedState.selectedCategory).length) :=
  ⟨rfl,
    startGame_questions_perm_up_to_images [sampleQuestion] (fun _ => 0)
      (fun _ => some "hint.png") 7 easySelectedState Difficulty.easy rfl⟩

/-! ## Claim C3 -/

/-- C3: while playing and not yet answered, with the current question in
range, selecting an answer index in 0..3 records it, marks the question
answered and bumps the score exactly when the index is the correct one; no
other field changes. -/
theorem handleAnswerSelect_records (s : GameState) (i : Int) (q : TriviaQuestion)
    (hstart : s.gameStarted = true)
    (hans : s.answered = false)
    (hq : s.questions.get? s.currentQuestionIndex = some q)
    (hlo : 0 ≤ i) (hhi : i ≤ 3) :
    handleAnswerSelect s i =
      some { s with
              selectedAnswer := some i
              answered := true
              score :=
                if i = (q.correctAnswer : Int) then s.score + 1 else s.score } := by
  have hq2 : s.questions[s.currentQuestionIndex]? = some q := by
    rw [← List.get?_eq_getElem?]
    exact hq
  simp [handleAnswerSelect, hans, hq2]

/-- State in the middle of a one-question game, nothing answered yet. -/
def answeringState : GameState :=
  { initialGameState with
      gameStarted := true
      questions := [sampleQuestion]
      selectedDifficulty := some Difficulty.easy }

/-- Witness for C3: answering 0 on the sample question is correct and bumps
the score. -/
theorem handleAnswerSelect_records_witness :
    answeringState.gameStarted = true ∧
    answeringState.answered = false ∧
    answeringState.questions.get? answeringState.currentQuestionIndex =
      some sampleQuestion ∧
    handleAnswerSelect answeringState 0 =
      some { answeringState with
              selectedAnswer := some 0
              answered := true
              score :=
                if (0 : Int) = (sampleQuestion.correctAnswer : Int) then
                  answeringState.score + 1
                else answeringState.score } :=
  ⟨rfl, rfl, rfl,
    handleAnswerSelect_records answeringState 0 sampleQuestion rfl rfl rfl
      (by decide) (by decide)⟩

/-! ## Claim C4 -/

/-- C4: advancing with the question answered either moves to the next
question (clearing the per-question answer state) when one remains, or ends
the game, counting it and raising the high score to the maximum of the old
high score and the final score. -/
theorem handleNextQuestion_spec (s : GameState) (hans : s.answered = true) :
    (s.questions.length ≤ s.currentQuestionIndex + 1 →
      handleNextQuestion s =
        { s with
            gameStarted := false
            totalGamesPlayed := s.totalGamesPlayed + 1
            highScore := max s.highScore s.score }) ∧
    (s.currentQuestionIndex + 1 < s.questions.length →
      handleNextQuestion s =
        { s with
            currentQuestionIndex := s.currentQuestionIndex + 1
            answered := false
            selectedAnswer := none }) := by
  constructor
  · intro hlast
    have hnotlt : ¬ (s.currentQuestionIndex + 1 < s.questions.length) := by omega
    have hmax : (if s.score > s.highScore then s.score else s.highScore) =
        max s.highScore s.score := by
      split <;> omega
    simp [handleNextQuestion, hnotlt, hmax]
  · intro hnext
    simp [handleNextQuestion, hnext]

/-- State on the last question of a one-question game, answered correctly. -/
def answeredLastState : GameState :=
  { initialGameState with
      gameStarted := true
      questions := [sampleQuestion]
      answered := true
      selectedAnswer := some 0
      score := 1
      selectedDifficulty := some Difficulty.easy }

/-- Witness for C4: finishing the one-question game counts it and updates
the high score; the theorem also covers the advancing branch. -/
theorem handleNextQuestion_spec_witness :
    answeredLastState.answered = true ∧
    answeredLastState.questions.length ≤ answeredLastState.currentQuestionIndex + 1 ∧
    handleNextQuestion answeredLastState =
      { answeredLastState with
          gameStarted := false
          totalGamesPlayed := answeredLastState.totalGamesPlayed + 1
          highScore := max answeredLastState.highScore answeredLastState.score } :=
  ⟨rfl, by decide,
    (handleNextQuestion_spec answeredLastState rfl).1 (by decide)⟩

/-! ## Claim C5 -/

/-- C5: once a question is answered, any further answer selection (any
index, equal or not to the recorded one) leaves the whole state unchanged. -/
theorem handleAnswerSelect_idempotent (s : GameState) (j : Int)
    (hans : s.answered = true) : handleAnswerSelect s j = some s := by
  simp [handleAnswerSelect, hans]

/-- Witness for C5: a second selection with a different index on an
answered state returns the state unchanged. -/
theorem handleAnswerSelect_idempotent_witness :
    answeredLastState.answered = true ∧
    handleAnswerSelect answeredLastState 2 = some answeredLastState :=
  ⟨rfl, handleAnswerSelect_idempotent answeredLastState 2 rfl⟩

/-! ## Claim C6 -/

/-- C6: in every state reachable by user actions that is in Playing
(started, current index in range), the score never exceeds
`currentQuestionIndex + (answered ? 1 : 0)`. -/
theorem reachable_playing_score_bound {s : GameState} (hr : Reachable s)
    (hstart : s.gameStarted = true)
    (hidx : s.currentQuestionIndex < s.questions.length) :
    s.score ≤ s.currentQuestionIndex + (if s.answered then 1 else 0) :=
  reachable_score_le hr

/-- Concrete reachable Playing state: select easy, then start on a
one-question pool. -/
def witnessPlayingState : GameState :=
  startGame [sampleQuestion] true (fun _ => 0) (fun _ => none) 3
    (handleDifficultySelect initialGameState Difficulty.easy)

/-- Witness for C6 at the concrete reachable Playing state. -/
theorem reachable_playing_score_bound_witness :
    witnessPlayingState.gameStarted = true ∧
    witnessPlayingState.currentQuestionIndex < witnessPlayingState.questions.length ∧
    witnessPlayingState.score ≤ witnessPlayingState.currentQuestionIndex +
      (if witnessPlayingState.answered then 1 else 0) :=
  ⟨by decide, by decide,
    reachable_playing_score_bound
      (Reachable.step
        (Reachable.step Reachable.init
          (Step.selectDifficulty initialGameState Difficulty.easy))
        (Step.start (handleDifficultySelect initialGameState Difficulty.easy)
          [sampleQuestion] true (fun _ => 0) (fun _ => none) 3))
      (by decide) (by decide)⟩

/-! ## Claim C7 -/

/-- Finished state of a one-question game won with one point. -/
def finishedShortState : GameState :=
  { initialGameState with
      gameStarted := true
      questions := [sampleQuestion]
      currentQuestionIndex := 1
      score := 1 }

/-- C7 counterexample: the AI-generation variant divides by the constant
`QUESTIONS_PER_GAME` (45), so on a finished one-question game it does not
display `round(score / total * 100)` with total the question-list length. -/
theorem resultPercentageTsx_counterexample :
    resultPercentageTsx finishedShortState ≠
      jsRound ((finishedShortState.score : ℚ) /
        (finishedShortState.questions.length : ℚ) * 100) := by
  have h1 : resultPercentageTsx finishedShortState = 2 := by
    unfold resultPercentageTsx jsRound QUESTIONS_PER_GAME QUESTIONS_PER_DIFFICULTY
    norm_num [finishedShortState, initialGameState]
  have h2 : jsRound ((finishedShortState.score : ℚ) /
      (finishedShortState.questions.length : ℚ) * 100) = 100 := by
    unfold jsRound
    norm_num [finishedShortState, initialGameState]
  rw [h1, h2]
  decide

/-- C7 (amended): the static-pool variant displays
`round(score / questions.length * 100)`; the AI-generation variant displays
`round(score / QUESTIONS_PER_GAME * 100)`, which agrees with the claimed
formula exactly when the question list has `QUESTIONS_PER_GAME` entries. -/
theorem resultPercentage_spec (s : GameState) :
    resultPercentage s =
      jsRound ((s.score : ℚ) / (s.questions.length : ℚ) * 100) ∧
    (s.questions.length = QUESTIONS_PER_GAME →
      resultPercentageTsx s =
        jsRound ((s.score : ℚ) / (s.questions.length : ℚ) * 100)) :=
  ⟨rfl, fun h => by rw [resultPercentageTsx, h]⟩

/-- Finished state of a full 45-question game with 30 points. -/
def fullGameFinishedState : GameState :=
  { initialGameState with
      gameStarted := true
      questions := List.replicate QUESTIONS_PER_GAME sampleQuestion
      currentQuestionIndex := QUESTIONS_PER_GAME
      score := 30 }

/-- Witness for C7 on a full-length game, where both variants agree with
the claimed formula. -/
theorem resultPercentage_spec_witness :
    fullGameFinishedState.questions.length = QUESTIONS_PER_GAME ∧
    resultPercentage fullGameFinishedState =
      jsRound ((fullGameFinishedState.score : ℚ) /
        (fullGameFinishedState.questions.length : ℚ) * 100) ∧
    resultPercentageTsx fullGameFinishedState =
      jsRound ((fullGameFinishedState.score : ℚ) /
        (fullGameFinishedState.questions.length : ℚ) * 100) :=
  ⟨by decide, (resultPercentage_spec fullGameFinishedState).1,
    (resultPercentage_spec fullGameFinishedState).2 (by decide)⟩

/-! ## Claim C8 -/

/-- C8 counterexample: with nothing answered yet, selecting the out-of-range
index 4 is not a no-op: the handler has no range check, so the state
changes (it records the index and marks the question answered). -/
theorem handleAnswerSelect_out_of_range_counterexample :
    answeringState.answered = false ∧
    handleAnswerSelect answeringState 4 ≠ some answeringState := by
  decide

/-- C8 (amended): with nothing answered yet and the current question in
range, selecting an index outside 0..3 still records the index and marks
the question answered; only the score is guaranteed unchanged, because an
out-of-range index can never equal the question's correct answer (which
lies in 0..3). -/
theorem handleAnswerSelect_out_of_range (s : GameState) (i : Int)
    (q : TriviaQuestion)
    (hans : s.answered = false)
    (hq : s.questions.get? s.currentQuestionIndex = some q)
    (hca : q.correctAnswer ≤ 3)
    (hout : i < 0 ∨ 3 < i) :
    handleAnswerSelect s i =
      some { s with selectedAnswer := some i, answered := true } := by
  have hq2 : s.questions[s.currentQuestionIndex]? = some q := by
    rw [← List.get?_eq_getElem?]
    exact hq
  have hne : ¬ i = (q.correctAnswer : Int) := by omega
  simp [handleAnswerSelect, hans, hq2, hne]

/-- Witness for the amended C8 at index 4 on the sample question. -/
theorem handleAnswerSelect_out_of_range_witness :
    answeringState.answered = false ∧
    answeringState.questions.get? answeringState.currentQuestionIndex =
      some sampleQuestion ∧
    sampleQuestion.correctAnswer ≤ 3 ∧
    handleAnswerSelect answeringState 4 =
      some { answeringState with selectedAnswer := some 4, answered := true } :=
  ⟨rfl, rfl, by decide,
    handleAnswerSelect_out_of_range answeringState 4 sampleQuestion rfl rfl
      (by decide) (Or.inr (by decide))⟩

/-! ## Claim C9 -/

/-- C9: restartGame and quitGame always succeed and reset the game fields:
index and score to zero, answered to false, selectedAnswer to none, started
to false, both filters to null and the question list to empty; the two
handlers perform the identical reset. -/
theorem restart_quit_reset (s : GameState) :
    (restartGame s).currentQuestionIndex = 0 ∧
    (restartGame s).score = 0 ∧
    (restartGame s).answered = false ∧
    (restartGame s).selectedAnswer = none ∧
    (restartGame s).gameStarted = false ∧
    (restartGame s).selectedDifficulty = none ∧
    (restartGame s).selectedCategory = none ∧
    (restartGame s).questions = [] ∧
    quitGame s = restartGame s := by
  simp [restartGame, quitGame]

/-! ## Claim C10 -/

/-- C10: restartGame and quitGame keep the persisted lifetime statistics:
the games-played counter, the high score and the last-played timestamp are
unchanged. -/
theorem restart_quit_preserve_stats (s : GameState) :
    (restartGame s).totalGamesPlayed = s.totalGamesPlayed ∧
    (restartGame s).highScore = s.highScore ∧
    (restartGame s).lastPlayedAt = s.lastPlayedAt ∧
    (quitGame s).totalGamesPlayed = s.totalGamesPlayed ∧
    (quitGame s).highScore = s.highScore ∧
    (quitGame s).lastPlayedAt = s.lastPlayedAt := by
  simp [restartGame, quitGame]
